import Mathlib

/-!
Verification of the online-voting-system backend (Node/Express + Mongoose).

The relevant JavaScript is shallowly embedded: Mongoose documents become
Lean structures, collections become lists, route handlers and model
methods become pure Lean functions returning a response value together
with the updated store.  Instants in time (results of Date.now and Date
comparisons) are modelled as Int milliseconds; calendar-component
arithmetic (getFullYear / getMonth / getDate) uses a year-month-day
record.  JavaScript number arithmetic on vote counters and percentages is
modelled with Rat; the counter values involved are small integers, so no
floating-point rounding is observable in the modelled computations.
The sha256 primitive and the bcrypt password comparison are standard
library primitives and are abstracted: the hash is an arbitrary
String-to-String function threaded through the model, and a password
comparison outcome is a Bool argument.  Randomness (the verification
code bytes) is likewise an input.
-/

deriving instance DecidableEq for Except

namespace OnlineVoting

/-- A calendar date, for the date-component arithmetic performed by the
voter-registration age check and the voterSchema age virtual.  month is
0-based as in JavaScript getMonth; day is getDate. -/
structure SimpleDate where
  year : Int
  month : Int
  day : Int
  deriving DecidableEq

/-- Election document (models/Election.js, electionSchema).  Identity and
descriptive fields not read by any modelled operation (title, type,
scope, constituency, officials, winner and so on) are omitted; the five
timeline timestamps, the status enumeration and the statistics counters
are the fields the verified routes and methods consult or write. -/
structure Election where
  id : Nat
  registrationStartDate : Int
  registrationEndDate : Int
  votingStartDate : Int
  votingEndDate : Int
  resultDate : Int
  /-- enum: upcoming, registration, active, completed, cancelled -/
  status : String
  isActive : Bool
  totalRegisteredVoters : Nat
  totalVotesCast : Nat
  totalCandidates : Int
  turnoutPercentage : Rat
  deriving DecidableEq

/-- Candidate document (models/Candidate.js, candidateSchema).  Media and
biography fields (profilePhoto, partySymbol, education, occupation,
experience, manifesto, campaignSlogan, contactInfo, criminalRecord,
assetsValue) are plain data never consulted by the modelled control flow
and are omitted. -/
structure Candidate where
  id : Nat
  fullName : String
  age : Nat
  politicalParty : String
  election : Nat
  constituency : String
  voteCount : Nat
  isActive : Bool
  isApproved : Bool
  deriving DecidableEq

/-- Voter document (models/Candidate.js second part, voterSchema).
Address, gender and password are data fields not consulted by the
modelled control flow and are omitted; registeredAt is kept as a
calendar date because the age invariant is about the registration
date. -/
structure Voter where
  id : Nat
  fullName : String
  email : String
  phoneNumber : String
  aadhaarNumber : String
  dateOfBirth : SimpleDate
  hasVoted : Bool
  votedElections : List (Nat × Int)
  isActive : Bool
  isVerified : Bool
  registeredAt : SimpleDate
  deriving DecidableEq

/-- Vote document (models/Vote.js, voteSchema).  deviceInfo and the
audit log are omitted data fields. -/
structure Vote where
  voter : Nat
  election : Nat
  candidate : Nat
  votedAt : Int
  voteHash : String
  voterHash : String
  verificationCode : String
  /-- enum: valid, invalid, disputed, under_review -/
  status : String
  deriving DecidableEq

/-- Admin document (models/Admin.js, adminSchema), restricted to the
fields the login route and the lockout methods read or write.  The
outcome of the bcrypt comparison is passed to the login model as a
Bool, so no password field is carried. -/
structure Admin where
  loginAttempts : Nat
  lockUntil : Option Int
  isActive : Bool
  lastLogin : Option Int
  deriving DecidableEq

/-- electionSchema.methods.isVotingActive (routes/candidates.js line
1133): now within the voting window and administrative status equal to
active. -/
def isVotingActive (now : Int) (e : Election) : Bool :=
  decide (e.votingStartDate ≤ now) && decide (now ≤ e.votingEndDate)
    && decide (e.status = "active")

/-- electionSchema.virtual currentPhase (routes/candidates.js line 1114):
the time-derived phase, an if-else chain over the five timestamps with a
waiting fallback. -/
def currentPhase (now : Int) (e : Election) : String :=
  if now < e.registrationStartDate then "upcoming"
  else if e.registrationStartDate ≤ now ∧ now ≤ e.registrationEndDate then "registration"
  else if e.votingStartDate ≤ now ∧ now ≤ e.votingEndDate then "voting"
  else if e.votingEndDate < now ∧ now < e.resultDate then "counting"
  else if e.resultDate ≤ now then "completed"
  else "waiting"

/-- Rank of a phase in the stage order
upcoming, registration, waiting, voting, counting, completed; the
catch-all rank 6 is never produced by currentPhase. -/
def phaseRank : String → Nat
  | "upcoming" => 0
  | "registration" => 1
  | "waiting" => 2
  | "voting" => 3
  | "counting" => 4
  | "completed" => 5
  | _ => 6

/-- The date-sequence validation of POST /api/elections
(routes/elections.js lines 229-255): four guard clauses, each rejecting
with its fixed message; note every comparison rejects equality as
well. -/
def validateDateSequence (regStart regEnd voteStart voteEnd resultDt : Int) :
    Except String Unit :=
  if regStart ≥ regEnd then .error "Registration end date must be after start date"
  else if voteStart ≥ voteEnd then .error "Voting end date must be after start date"
  else if regEnd ≥ voteStart then .error "Voting must start after registration ends"
  else if voteEnd ≥ resultDt then .error "Result date must be after voting ends"
  else .ok ()

/-- The ordering the specification text asserts for election creation:
regStart < regEnd ≤ voteStart < voteEnd ≤ resultDate, with the two
equalities explicitly allowed.  Written from the specification words, to
be compared with validateDateSequence, which is written from the
code. -/
def specDateOrdering (regStart regEnd voteStart voteEnd resultDt : Int) : Prop :=
  regStart < regEnd ∧ regEnd ≤ voteStart ∧ voteStart < voteEnd ∧ voteEnd ≤ resultDt

/-- electionSchema.methods.updateTurnout (routes/candidates.js line
1145) followed by the Mongoose save: when totalRegisteredVoters is
positive the field is recomputed, with no clamping anywhere; the save
then runs the schema validators, and the turnoutPercentage field
declares min 0 and max 100, so a recomputed value outside that range
makes the save reject and nothing is persisted. -/
def updateTurnout (e : Election) : Except String Election :=
  if e.totalRegisteredVoters > 0 then
    if (e.totalVotesCast : Rat) / (e.totalRegisteredVoters : Rat) * 100 < 0
        ∨ (e.totalVotesCast : Rat) / (e.totalRegisteredVoters : Rat) * 100 > 100 then
      .error "Election validation failed: turnoutPercentage out of range"
    else
      .ok { e with turnoutPercentage :=
              (e.totalVotesCast : Rat) / (e.totalRegisteredVoters : Rat) * 100 }
  else
    if e.turnoutPercentage < 0 ∨ e.turnoutPercentage > 100 then
      .error "Election validation failed: turnoutPercentage out of range"
    else .ok e

/-- The ascending votingStartDate sort applied by find().sort with key
votingStartDate ascending. -/
def sortByVotingStart (l : List Election) : List Election :=
  l.mergeSort (fun a b => decide (a.votingStartDate ≤ b.votingStartDate))

/-- electionSchema.statics.findByPhase (routes/candidates.js line 1161):
a switch over the phase string builds the query; any phase outside the
four recognised cases leaves the query empty, which matches every
document.  The result is sorted by votingStartDate ascending. -/
def findByPhase (phase : String) (now : Int) (elections : List Election) :
    List Election :=
  let queryPred : Election → Bool :=
    if phase = "upcoming" then
      fun e => decide (now < e.registrationStartDate)
    else if phase = "registration" then
      fun e => decide (e.registrationStartDate ≤ now) && decide (now ≤ e.registrationEndDate)
    else if phase = "voting" then
      fun e => decide (e.votingStartDate ≤ now) && decide (now ≤ e.votingEndDate)
        && decide (e.status = "active")
    else if phase = "completed" then
      fun e => decide (e.status = "completed")
    else
      fun _ => true
  sortByVotingStart (elections.filter queryPred)

/-- The whole persisted store: the five collections (admins are handled
per-document by the login model and are not needed here). -/
structure SystemState where
  voters : List Voter
  elections : List Election
  candidates : List Candidate
  votes : List Vote
  deriving DecidableEq

/-- A cast request as it reaches POST /api/votes/cast after
authentication: the authenticated voter id, the two body ids, the
request instant (Date.now) and the random bytes the pre-save hook would
turn into the verification code. -/
structure CastRequest where
  voterId : Nat
  electionId : Nat
  candidateId : Nat
  now : Int
  code : String
  deriving DecidableEq

/-- The distinguishable outcomes of POST /api/votes/cast, one per
response the handler can produce. -/
inductive CastResponse where
  /-- HTTP 404 Election not found -/
  | electionNotFound
  /-- HTTP 400 Voting is not currently active for this election -/
  | votingNotActive
  /-- HTTP 400 You have already voted in this election -/
  | alreadyVoted
  /-- HTTP 404 Candidate not found or not approved for this election -/
  | candidateNotFound
  /-- HTTP 401 from the authenticate middleware: no such voter -/
  | unauthenticated
  /-- HTTP 403 Your account must be verified to vote -/
  | notVerified
  /-- HTTP 403 Your account is not active -/
  | notActive
  /-- duplicate-key rejection from a unique index on the votes collection -/
  | duplicateKey
  /-- HTTP 500: the turnout save failed validation after the vote was inserted -/
  | turnoutSaveError
  /-- HTTP 201 Vote cast successfully, carrying the verification code -/
  | success (verificationCode : String)
  deriving DecidableEq

/-- The string hashed by the pre-save hook and by verifyIntegrity
(models/Vote.js lines 113 and 128): voter, candidate, election and
votedAt joined by underscores. -/
def voteString (voter candidate election : Nat) (votedAt : Int) : String :=
  toString voter ++ "_" ++ toString candidate ++ "_" ++ toString election
    ++ "_" ++ toString votedAt

/-- The string hashed into the anonymised voter hash (models/Vote.js
line 107): voter, election and the save instant. -/
def voterString (voter election : Nat) (saveNow : Int) : String :=
  toString voter ++ "_" ++ toString election ++ "_" ++ toString saveNow

/-- voteSchema.statics.hasVoterVoted (models/Vote.js line 202): findOne
on the (voter, election) pair. -/
def hasVoterVoted (voterId electionId : Nat) (votes : List Vote) : Option Vote :=
  votes.find? (fun v => v.voter == voterId && v.election == electionId)

/-- The Vote document built by Vote.create in the cast handler together
with the pre-save hook (models/Vote.js lines 101-123): the caller
supplies no hashes, votedAt defaults to the current instant, and the
hook fills voterHash, voteHash and the verification code. -/
def mkCastVote (H : String → String) (r : CastRequest) : Vote :=
  { voter := r.voterId
    election := r.electionId
    candidate := r.candidateId
    votedAt := r.now
    voteHash := H (voteString r.voterId r.candidateId r.electionId r.now)
    voterHash := H (voterString r.voterId r.electionId r.now)
    verificationCode := r.code
    status := "valid" }

/-- voteSchema.methods.verifyIntegrity (models/Vote.js line 126):
recompute the hash from the stored fields and compare with the stored
voteHash. -/
def verifyIntegrity (H : String → String) (v : Vote) : Bool :=
  v.voteHash == H (voteString v.voter v.candidate v.election v.votedAt)

/-- The unique indexes on the votes collection (models/Vote.js lines
93-98): the compound (voter, election) index plus the voteHash,
voterHash and verificationCode indexes.  An insert violating any of
them is rejected by the store. -/
def violatesUniqueIndex (nv : Vote) (votes : List Vote) : Bool :=
  votes.any (fun v =>
    (v.voter == nv.voter && v.election == nv.election)
      || v.voteHash == nv.voteHash
      || v.voterHash == nv.voterHash
      || v.verificationCode == nv.verificationCode)

/-- The side effect on the voters collection after a successful insert:
Voter.findByIdAndUpdate sets hasVoted and appends the election to the
history. -/
def castMarkVoted (r : CastRequest) (voters : List Voter) : List Voter :=
  voters.map (fun v =>
    if v.id == r.voterId then
      { v with hasVoted := true,
               votedElections := v.votedElections ++ [(r.electionId, r.now)] }
    else v)

/-- The side effect on the candidates collection after a successful
insert: candidate.incrementVote. -/
def castIncCandidate (r : CastRequest) (candidates : List Candidate) :
    List Candidate :=
  candidates.map (fun c =>
    if c.id == r.candidateId then { c with voteCount := c.voteCount + 1 } else c)

/-- The side effect on the elections collection after a successful
insert: Election.findByIdAndUpdate with an increment of
totalVotesCast. -/
def castIncTotal (r : CastRequest) (elections : List Election) : List Election :=
  elections.map (fun e =>
    if e.id == r.electionId then { e with totalVotesCast := e.totalVotesCast + 1 } else e)

/-- POST /api/votes/cast (the votes router).  Checks in handler order:
election lookup, isVotingActive, hasVoterVoted, candidate lookup with
the active and approved filters, voter verified and active; then the
insert (guarded by the unique indexes) and the side effects: candidate
incrementVote, voter hasVoted plus history append, election
totalVotesCast increment, and updateTurnout on the election object
fetched at the start of the handler (so computed from the pre-increment
counter); a turnout save rejected by validation reaches the error
middleware as a 500 with the vote already inserted and the other
side effects applied. -/
def castVote (H : String → String) (r : CastRequest) (s : SystemState) :
    CastResponse × SystemState :=
  match s.elections.find? (fun e => e.id == r.electionId) with
  | none => (.electionNotFound, s)
  | some election =>
    if isVotingActive r.now election = false then (.votingNotActive, s)
    else match hasVoterVoted r.voterId r.electionId s.votes with
    | some _ => (.alreadyVoted, s)
    | none =>
      match s.candidates.find? (fun c =>
          c.id == r.candidateId && c.election == r.electionId
            && c.isActive && c.isApproved) with
      | none => (.candidateNotFound, s)
      | some _ =>
        match s.voters.find? (fun v => v.id == r.voterId) with
        | none => (.unauthenticated, s)
        | some voter =>
          if voter.isVerified = false then (.notVerified, s)
          else if voter.isActive = false then (.notActive, s)
          else if violatesUniqueIndex (mkCastVote H r) s.votes then (.duplicateKey, s)
          else
            match updateTurnout election with
            | .error _ =>
              (.turnoutSaveError,
               { voters := castMarkVoted r s.voters,
                 elections := castIncTotal r s.elections,
                 candidates := castIncCandidate r s.candidates,
                 votes := mkCastVote H r :: s.votes })
            | .ok eT =>
              (.success (mkCastVote H r).verificationCode,
               { voters := castMarkVoted r s.voters,
                 elections := (castIncTotal r s.elections).map (fun e =>
                   if e.id == r.electionId then
                     { e with turnoutPercentage := eT.turnoutPercentage } else e),
                 candidates := castIncCandidate r s.candidates,
                 votes := mkCastVote H r :: s.votes })

/-- A sequence of cast operations applied in order. -/
def castMany (H : String → String) (rs : List CastRequest) (s : SystemState) :
    SystemState :=
  rs.foldl (fun st r => (castVote H r st).2) s

/-- The at-most-one-vote-per-voter-per-election invariant on the vote
ledger. -/
def uniquePerVoterElection (votes : List Vote) : Prop :=
  votes.Pairwise (fun a b => a.voter ≠ b.voter ∨ a.election ≠ b.election)

/-- The body of a PUT /api/candidates/:id request.  Option none means
the field is absent from the JSON body.  The election key is what the
voting-started guard tests for; it is not in allowedUpdates, so its
value is never applied.  The remaining allowed fields are plain data
handled exactly like the four modelled ones. -/
structure CandidateUpdateBody where
  fullName : Option String
  age : Option Nat
  politicalParty : Option String
  constituency : Option String
  election : Option Nat
  deriving DecidableEq

/-- Outcomes of the candidate update and delete handlers. -/
inductive CandidateMutationResponse where
  /-- HTTP 404 Candidate not found -/
  | notFound
  /-- HTTP 400 Cannot modify candidate details after voting has started -/
  | updateBlockedVotingStarted
  /-- HTTP 400 Cannot delete candidate after voting has started -/
  | deleteBlockedVotingStarted
  /-- HTTP 200 Candidate updated successfully -/
  | updated
  /-- HTTP 200 Candidate deactivated successfully (had received votes) -/
  | deactivated
  /-- HTTP 200 Candidate deleted successfully -/
  | deleted
  deriving DecidableEq

/-- Application of the allowedUpdates filter of PUT /api/candidates/:id
to one candidate: only whitelisted fields are copied, the election key
is dropped. -/
def applyCandidateUpdates (b : CandidateUpdateBody) (c : Candidate) : Candidate :=
  { c with
    fullName := b.fullName.getD c.fullName
    age := b.age.getD c.age
    politicalParty := b.politicalParty.getD c.politicalParty
    constituency := b.constituency.getD c.constituency }

/-- PUT /api/candidates/:id (routes/candidates.js lines 230-286).  The
voting-started guard is only evaluated when the request body carries an
election key; otherwise the whitelisted updates are applied
unconditionally. -/
def updateCandidate (now : Int) (candidateId : Nat) (b : CandidateUpdateBody)
    (s : SystemState) : CandidateMutationResponse × SystemState :=
  match s.candidates.find? (fun c => c.id == candidateId) with
  | none => (.notFound, s)
  | some c =>
    let blocked :=
      b.election.isSome &&
        (match s.elections.find? (fun e => e.id == c.election) with
         | some e => isVotingActive now e
         | none => false)
    if blocked then (.updateBlockedVotingStarted, s)
    else
      (.updated,
       { s with candidates := s.candidates.map (fun x =>
           if x.id == candidateId then applyCandidateUpdates b x else x) })

/-- DELETE /api/candidates/:id (routes/candidates.js lines 334-386):
the voting-started guard is unconditional; a candidate holding votes is
deactivated in place, otherwise the document is removed and the owning
election candidate counter decremented. -/
def deleteCandidate (now : Int) (candidateId : Nat) (s : SystemState) :
    CandidateMutationResponse × SystemState :=
  match s.candidates.find? (fun c => c.id == candidateId) with
  | none => (.notFound, s)
  | some c =>
    let blocked :=
      match s.elections.find? (fun e => e.id == c.election) with
      | some e => isVotingActive now e
      | none => false
    if blocked then (.deleteBlockedVotingStarted, s)
    else if c.voteCount > 0 then
      (.deactivated,
       { s with candidates := s.candidates.map (fun x =>
           if x.id == candidateId then { x with isActive := false } else x) })
    else
      (.deleted,
       { s with
         candidates := s.candidates.filter (fun x => !(x.id == candidateId))
         elections := s.elections.map (fun e =>
           if e.id == c.election then { e with totalCandidates := e.totalCandidates - 1 } else e) })

/-- adminSchema.virtual isLocked (models/Admin.js line 125): a lockUntil
timestamp strictly in the future. -/
def isLocked (now : Int) (a : Admin) : Bool :=
  match a.lockUntil with
  | some t => decide (now < t)
  | none => false

/-- Two hours in milliseconds, the lockout duration. -/
def lockDurationMs : Int := 2 * 60 * 60 * 1000

/-- adminSchema.methods.incLoginAttempts (models/Admin.js line 148): if
a previous lock has expired, restart the counter at 1 and drop the
lock; otherwise increment, and set lockUntil two hours out when the
incremented counter reaches 5 on an unlocked account. -/
def incLoginAttempts (now : Int) (a : Admin) : Admin :=
  match a.lockUntil with
  | some t =>
    if t < now then { a with lockUntil := none, loginAttempts := 1 }
    else
      if a.loginAttempts + 1 ≥ 5 ∧ isLocked now a = false then
        { a with loginAttempts := a.loginAttempts + 1,
                 lockUntil := some (now + lockDurationMs) }
      else { a with loginAttempts := a.loginAttempts + 1 }
  | none =>
    if a.loginAttempts + 1 ≥ 5 ∧ isLocked now a = false then
      { a with loginAttempts := a.loginAttempts + 1,
               lockUntil := some (now + lockDurationMs) }
    else { a with loginAttempts := a.loginAttempts + 1 }

/-- adminSchema.methods.resetLoginAttempts (models/Admin.js line 168):
unset both the counter and the lock (an unset numeric field reads back
as the schema default 0). -/
def resetLoginAttempts (a : Admin) : Admin :=
  { a with loginAttempts := 0, lockUntil := none }

/-- Outcomes of POST /api/auth/admin/login for a found admin. -/
inductive AdminLoginResponse where
  /-- HTTP 423 Account is temporarily locked -/
  | locked
  /-- HTTP 401 Your account has been deactivated -/
  | deactivated
  /-- HTTP 401 Invalid credentials -/
  | invalidCredentials
  /-- HTTP 200 Admin login successful -/
  | success
  deriving DecidableEq

/-- POST /api/auth/admin/login (auth router lines 244-276), for the
admin document the email lookup found.  pwOk is the outcome of the
bcrypt comparison of the submitted password.  Order: lock check first
(before the password is even compared), then active check, then the
comparison; a failure increments the attempt counter, a success resets
it and stamps lastLogin. -/
def adminLogin (now : Int) (pwOk : Bool) (a : Admin) :
    AdminLoginResponse × Admin :=
  if isLocked now a then (.locked, a)
  else if a.isActive = false then (.deactivated, a)
  else if pwOk = false then (.invalidCredentials, incLoginAttempts now a)
  else (.success, { resetLoginAttempts a with lastLogin := some now })

/-- A sequence of failed login attempts at the given instants. -/
def failedLogins (times : List Int) (a : Admin) : Admin :=
  times.foldl (fun st t => (adminLogin t false st).2) a

/-- The intended age of a person born on birth as of today, exactly the
voterSchema age virtual (models/Candidate.js second part, lines
316-327): the year difference, minus one when the birthday has not yet
occurred this year. -/
def actualAge (today birth : SimpleDate) : Int :=
  if today.month - birth.month < 0
      ∨ (today.month - birth.month = 0 ∧ today.day < birth.day) then
    today.year - birth.year - 1
  else today.year - birth.year

/-- A registration request body after express-validator has accepted
the formats. -/
structure RegisterRequest where
  fullName : String
  email : String
  phoneNumber : String
  aadhaarNumber : String
  dateOfBirth : SimpleDate
  deriving DecidableEq

/-- Outcomes of POST /api/auth/register. -/
inductive RegisterResponse where
  /-- HTTP 400 Voter with this email, phone number, or Aadhaar number already exists -/
  | duplicate
  /-- HTTP 500: the handler throws a TypeError before the underage branch.
  The age binding is declared const yet the code executes a decrement on
  it whenever the birthday has not yet occurred this calendar year;
  reassigning a const binding throws, the catch forwards it to the error
  middleware, and the response is the generic server error. -/
  | serverError
  /-- HTTP 400 You must be at least 18 years old to register as a voter -/
  | underage
  /-- HTTP 400: Mongoose validation failure from the voterSchema dateOfBirth
  validator (year difference below 18) -/
  | validationFailed
  /-- HTTP 201 Voter registered successfully -/
  | success
  deriving DecidableEq

/-- POST /api/auth/register (auth router lines 13-126) together with
the voterSchema dateOfBirth validator that Voter.create runs: duplicate
check on email, phone and Aadhaar; then the age eligibility block,
which computes the plain year difference into a const binding and
decrements it when the birthday has not yet occurred this year - that
decrement throws, so that branch surfaces as a server error; otherwise
an under-18 year difference is rejected; finally the document is
created, with the schema validator re-checking the year difference. -/
def registerVoter (today : SimpleDate) (r : RegisterRequest)
    (voters : List Voter) : RegisterResponse × List Voter :=
  if voters.any (fun v =>
      v.email == r.email || v.phoneNumber == r.phoneNumber
        || v.aadhaarNumber == r.aadhaarNumber) then
    (.duplicate, voters)
  else if today.month - r.dateOfBirth.month < 0
      ∨ (today.month - r.dateOfBirth.month = 0
          ∧ today.day < r.dateOfBirth.day) then
    (.serverError, voters)
  else if today.year - r.dateOfBirth.year < 18 then (.underage, voters)
  else if today.year - r.dateOfBirth.year < 18 then (.validationFailed, voters)
  else
      (.success,
       voters ++ [{ id := voters.length
                    fullName := r.fullName
                    email := r.email
                    phoneNumber := r.phoneNumber
                    aadhaarNumber := r.aadhaarNumber
                    dateOfBirth := r.dateOfBirth
                    hasVoted := false
                    votedElections := []
                    isActive := true
                    isVerified := false
                    registeredAt := today }])

/-! Helper lemmas shared by several claims. -/

lemma validateDateSequence_ok_iff (a b c d f : Int) :
    validateDateSequence a b c d f = .ok () ↔ a < b ∧ b < c ∧ c < d ∧ d < f := by
  unfold validateDateSequence
  split_ifs <;> simp_all

lemma phaseRank_upcoming : phaseRank "upcoming" = 0 := rfl

lemma phaseRank_registration : phaseRank "registration" = 1 := rfl

lemma phaseRank_waiting : phaseRank "waiting" = 2 := rfl

lemma phaseRank_voting : phaseRank "voting" = 3 := rfl

lemma phaseRank_counting : phaseRank "counting" = 4 := rfl

lemma phaseRank_completed : phaseRank "completed" = 5 := rfl

/-! Fixtures used by witnesses and counterexamples. -/

/-- An election whose voting window is [20, 30] and whose status is
active; no registered voters, so the turnout recomputation leaves the
field alone. -/
def demoElection : Election :=
  { id := 1, registrationStartDate := 0, registrationEndDate := 10,
    votingStartDate := 20, votingEndDate := 30, resultDate := 40,
    status := "active", isActive := true,
    totalRegisteredVoters := 0, totalVotesCast := 0, totalCandidates := 1,
    turnoutPercentage := 0 }

/-- An approved, active candidate in demoElection. -/
def demoCandidate : Candidate :=
  { id := 7, fullName := "Asha Rao", age := 40, politicalParty := "Unity",
    election := 1, constituency := "North", voteCount := 0,
    isActive := true, isApproved := true }

/-- A verified, active voter. -/
def demoVoter : Voter :=
  { id := 3, fullName := "Ravi Iyer", email := "ravi@example.com",
    phoneNumber := "9876543210", aadhaarNumber := "1234 5678 9012",
    dateOfBirth := ⟨1990, 4, 15⟩, hasVoted := false, votedElections := [],
    isActive := true, isVerified := true, registeredAt := ⟨2020, 1, 10⟩ }

/-- The store holding the three demo documents and an empty ledger. -/
def demoState : SystemState :=
  { voters := [demoVoter], elections := [demoElection],
    candidates := [demoCandidate], votes := [] }

/-- A cast request by the demo voter inside the voting window. -/
def demoRequest : CastRequest :=
  { voterId := 3, electionId := 1, candidateId := 7, now := 25, code := "AB12CD34" }

/-! Claim C4. -/

/-- Claim C4 counterexample: the specification allows
registrationEndDate equal to votingStartDate, but on the timestamps
(0, 10, 10, 20, 30), which satisfy the ordering the specification
demands, the creation validation rejects with the
voting-must-start-after-registration-ends message. -/
theorem createElection_rejects_equal_regEnd_voteStart :
    specDateOrdering 0 10 10 20 30
    ∧ validateDateSequence 0 10 10 20 30
        = .error "Voting must start after registration ends"
    ∧ validateDateSequence 0 10 10 20 30 ≠ .ok () := by
  refine ⟨⟨by decide, by decide, by decide, by decide⟩, by decide, by decide⟩

/-- Claim C4 (amended): election creation accepts exactly the requests
whose five timestamps are strictly increasing,
regStart < regEnd < voteStart < voteEnd < resultDate; equality at the
registration-end/voting-start boundary or at the
voting-end/result-date boundary is rejected. -/
theorem createElection_date_validation_strict
    (regStart regEnd voteStart voteEnd resultDt : Int) :
    validateDateSequence regStart regEnd voteStart voteEnd resultDt = .ok ()
      ↔ regStart < regEnd ∧ regEnd < voteStart ∧ voteStart < voteEnd
          ∧ voteEnd < resultDt :=
  validateDateSequence_ok_iff regStart regEnd voteStart voteEnd resultDt

/-! Claim C10. -/

/-- Claim C10: for any phase string outside the four recognised cases
(counting and waiting included), findByPhase builds the empty query and
therefore returns every election in the registry, sorted by
votingStartDate ascending. -/
theorem findByPhase_unknown_returns_all (phase : String) (now : Int)
    (elections : List Election)
    (h1 : phase ≠ "upcoming") (h2 : phase ≠ "registration")
    (h3 : phase ≠ "voting") (h4 : phase ≠ "completed") :
    findByPhase phase now elections = sortByVotingStart elections
    ∧ ∀ e : Election, e ∈ findByPhase phase now elections ↔ e ∈ elections := by
  have hq : findByPhase phase now elections = sortByVotingStart elections := by
    unfold findByPhase
    simp [h1, h2, h3, h4]
  refine ⟨hq, fun e => ?_⟩
  rw [hq]
  unfold sortByVotingStart
  exact List.mem_mergeSort

/-- Witness for claim C10 at the phase string counting, which the
derived currentPhase itself produces. -/
theorem findByPhase_unknown_returns_all_witness :
    ("counting" ≠ "upcoming" ∧ "counting" ≠ "registration"
      ∧ "counting" ≠ "voting" ∧ "counting" ≠ "completed")
    ∧ findByPhase "counting" 25 [demoElection] = sortByVotingStart [demoElection] :=
  ⟨⟨by decide, by decide, by decide, by decide⟩,
   (findByPhase_unknown_returns_all "counting" 25 [demoElection]
      (by decide) (by decide) (by decide) (by decide)).1⟩

/-! Claim C6. -/

/-- The turnout value the specification describes: the ratio times 100,
clamped into [0, 100].  Written from the specification words, to be
compared with updateTurnout, which is written from the code. -/
def specClampedTurnout (e : Election) : Rat :=
  min 100 (max 0 ((e.totalVotesCast : Rat) / (e.totalRegisteredVoters : Rat) * 100))

/-- An election whose counters make the recomputed turnout exceed 100:
three votes cast against two registered voters. -/
def overTurnoutElection : Election :=
  { demoElection with totalRegisteredVoters := 2, totalVotesCast := 3 }

/-- Claim C6 counterexample: with three votes cast and two registered
voters the recomputed value is 150; the specification says the stored
value is then the clamp 100, but updateTurnout performs no clamping -
the save fails schema validation and stores nothing at all. -/
theorem updateTurnout_does_not_clamp :
    specClampedTurnout overTurnoutElection = 100
    ∧ ((overTurnoutElection.totalVotesCast : Rat)
        / (overTurnoutElection.totalRegisteredVoters : Rat) * 100 = 150)
    ∧ ∀ e', updateTurnout overTurnoutElection ≠ .ok e' := by
  refine ⟨?_, ?_, ?_⟩
  · unfold specClampedTurnout overTurnoutElection demoElection
    norm_num
  · unfold overTurnoutElection demoElection
    norm_num
  · intro e' h
    unfold updateTurnout overTurnoutElection demoElection at h
    norm_num at h
    exact Except.noConfusion h

/-- Claim C6 (amended): when totalRegisteredVoters is positive,
updateTurnout recomputes turnoutPercentage as
totalVotesCast / totalRegisteredVoters * 100 with no clamping; the save
persists exactly when that value is at most 100 (the schema bounds
reject it otherwise and nothing is stored); when totalRegisteredVoters
is zero the field is not recomputed; and every value the save does
persist lies within [0, 100]. -/
theorem updateTurnout_exact_or_rejected (e : Election) :
    (e.totalRegisteredVoters > 0 →
      ((e.totalVotesCast : Rat) / (e.totalRegisteredVoters : Rat) * 100 ≤ 100 →
        updateTurnout e = .ok { e with turnoutPercentage :=
          (e.totalVotesCast : Rat) / (e.totalRegisteredVoters : Rat) * 100 })
      ∧ ((e.totalVotesCast : Rat) / (e.totalRegisteredVoters : Rat) * 100 > 100 →
        ∀ e', updateTurnout e ≠ .ok e'))
    ∧ (e.totalRegisteredVoters = 0 →
        0 ≤ e.turnoutPercentage → e.turnoutPercentage ≤ 100 →
        updateTurnout e = .ok e)
    ∧ (∀ e', updateTurnout e = .ok e' →
        0 ≤ e'.turnoutPercentage ∧ e'.turnoutPercentage ≤ 100) := by
  have hnonneg : (0:Rat) ≤ (e.totalVotesCast : Rat) / (e.totalRegisteredVoters : Rat) * 100 := by
    positivity
  refine ⟨fun hpos => ⟨fun hle => ?_, fun hgt e' h => ?_⟩, fun hz h0 h100 => ?_, fun e' h => ?_⟩
  · unfold updateTurnout
    rw [if_pos hpos, if_neg]
    push_neg
    exact ⟨hnonneg, hle⟩
  · unfold updateTurnout at h
    rw [if_pos hpos, if_pos (Or.inr hgt)] at h
    exact Except.noConfusion h
  · unfold updateTurnout
    rw [if_neg (by omega), if_neg]
    push_neg
    exact ⟨h0, h100⟩
  · unfold updateTurnout at h
    by_cases hp : e.totalRegisteredVoters > 0
    · rw [if_pos hp] at h
      by_cases hbad : (e.totalVotesCast : Rat) / (e.totalRegisteredVoters : Rat) * 100 < 0
          ∨ (e.totalVotesCast : Rat) / (e.totalRegisteredVoters : Rat) * 100 > 100
      · rw [if_pos hbad] at h
        exact Except.noConfusion h
      · rw [if_neg hbad] at h
        push_neg at hbad
        injection h with h
        rw [← h]
        exact ⟨hbad.1, hbad.2⟩
    · rw [if_neg hp] at h
      by_cases hbad : e.turnoutPercentage < 0 ∨ e.turnoutPercentage > 100
      · rw [if_pos hbad] at h
        exact Except.noConfusion h
      · rw [if_neg hbad] at h
        push_neg at hbad
        injection h with h
        rw [← h]
        exact ⟨hbad.1, hbad.2⟩

/-- The election used by the turnout witness: one vote cast against two
registered voters. -/
def halfTurnoutElection : Election :=
  { demoElection with totalRegisteredVoters := 2, totalVotesCast := 1 }

/-- Witness for claim C6 (amended): the turnout is stored as the exact
unclamped value of the ratio. -/
theorem updateTurnout_exact_or_rejected_witness :
    halfTurnoutElection.totalRegisteredVoters > 0
    ∧ updateTurnout halfTurnoutElection
        = .ok { halfTurnoutElection with turnoutPercentage :=
            (halfTurnoutElection.totalVotesCast : Rat)
              / (halfTurnoutElection.totalRegisteredVoters : Rat) * 100 } :=
  ⟨by decide,
   ((updateTurnout_exact_or_rejected halfTurnoutElection).1 (by decide)).1
     (by norm_num [halfTurnoutElection, demoElection])⟩

/-! Claim C7. -/

/-- Claim C7: for an election whose five timestamps pass the
creation-time validation, currentPhase is total - it always lands in the
six known stages, never the catch-all - and monotone in time under the
stage order upcoming, registration, waiting, voting, counting,
completed. -/
theorem currentPhase_total_and_monotone (e : Election)
    (hv : validateDateSequence e.registrationStartDate e.registrationEndDate
        e.votingStartDate e.votingEndDate e.resultDate = .ok ())
    (t1 t2 : Int) (hlt : t1 < t2) :
    phaseRank (currentPhase t1 e) ≤ 5
    ∧ phaseRank (currentPhase t2 e) ≤ 5
    ∧ phaseRank (currentPhase t1 e) ≤ phaseRank (currentPhase t2 e) := by
  obtain ⟨h1, h2, h3, h4⟩ := (validateDateSequence_ok_iff e.registrationStartDate
    e.registrationEndDate e.votingStartDate e.votingEndDate e.resultDate).mp hv
  refine ⟨?_, ?_, ?_⟩
  · unfold currentPhase
    split_ifs <;>
      simp only [phaseRank_upcoming, phaseRank_registration, phaseRank_waiting,
        phaseRank_voting, phaseRank_counting, phaseRank_completed] <;>
      omega
  · unfold currentPhase
    split_ifs <;>
      simp only [phaseRank_upcoming, phaseRank_registration, phaseRank_waiting,
        phaseRank_voting, phaseRank_counting, phaseRank_completed] <;>
      omega
  · unfold currentPhase
    split_ifs <;>
      simp only [phaseRank_upcoming, phaseRank_registration, phaseRank_waiting,
        phaseRank_voting, phaseRank_counting, phaseRank_completed] <;>
      omega

/-- Witness for claim C7 on the demo election at the instants 5
(registration) and 25 (voting). -/
theorem currentPhase_total_and_monotone_witness :
    validateDateSequence demoElection.registrationStartDate
        demoElection.registrationEndDate demoElection.votingStartDate
        demoElection.votingEndDate demoElection.resultDate = .ok ()
    ∧ (5 : Int) < 25
    ∧ phaseRank (currentPhase 5 demoElection)
        ≤ phaseRank (currentPhase 25 demoElection) :=
  ⟨by decide, by decide,
   (currentPhase_total_and_monotone demoElection (by decide) 5 25 (by decide)).2.2⟩

/-! Claim C9. -/

/-- Claim C9: registration succeeds only for applicants at least 18
years old on the registration date.  Every request whose date of birth
is under 18 years before today is rejected and stores nothing (some
such requests surface as the server error from the const reassignment
rather than the friendly underage message, but none succeeds); a
successful registration implies an age of at least 18; and the stored
collection keeps the everyone-was-18-at-registration invariant. -/
theorem register_requires_age_18 (today : SimpleDate) (r : RegisterRequest)
    (vs : List Voter) :
    (actualAge today r.dateOfBirth < 18 →
      (registerVoter today r vs).1 ≠ .success
      ∧ (registerVoter today r vs).2 = vs)
    ∧ ((registerVoter today r vs).1 = .success →
        18 ≤ actualAge today r.dateOfBirth)
    ∧ ((∀ v ∈ vs, 18 ≤ actualAge v.registeredAt v.dateOfBirth) →
        ∀ v ∈ (registerVoter today r vs).2,
          18 ≤ actualAge v.registeredAt v.dateOfBirth) := by
  by_cases hdup : (vs.any fun v =>
      v.email == r.email || v.phoneNumber == r.phoneNumber
        || v.aadhaarNumber == r.aadhaarNumber) = true
  · have hr : registerVoter today r vs = (.duplicate, vs) := by
      unfold registerVoter
      rw [if_pos hdup]
    rw [hr]
    exact ⟨fun _ => ⟨by simp, rfl⟩, fun h => absurd h (by simp),
      fun hall v hv => hall v hv⟩
  · by_cases hm : today.month - r.dateOfBirth.month < 0
        ∨ (today.month - r.dateOfBirth.month = 0 ∧ today.day < r.dateOfBirth.day)
    · have hr : registerVoter today r vs = (.serverError, vs) := by
        unfold registerVoter
        rw [if_neg hdup, if_pos hm]
      rw [hr]
      exact ⟨fun _ => ⟨by simp, rfl⟩, fun h => absurd h (by simp),
        fun hall v hv => hall v hv⟩
    · by_cases hage : today.year - r.dateOfBirth.year < 18
      · have hr : registerVoter today r vs = (.underage, vs) := by
          unfold registerVoter
          rw [if_neg hdup, if_neg hm, if_pos hage]
        rw [hr]
        exact ⟨fun _ => ⟨by simp, rfl⟩, fun h => absurd h (by simp),
          fun hall v hv => hall v hv⟩
      · have hr : registerVoter today r vs =
            (.success,
             vs ++ [{ id := vs.length, fullName := r.fullName, email := r.email,
                      phoneNumber := r.phoneNumber, aadhaarNumber := r.aadhaarNumber,
                      dateOfBirth := r.dateOfBirth, hasVoted := false,
                      votedElections := [], isActive := true, isVerified := false,
                      registeredAt := today }]) := by
          unfold registerVoter
          rw [if_neg hdup, if_neg hm, if_neg hage, if_neg hage]
        have hageOk : 18 ≤ actualAge today r.dateOfBirth := by
          unfold actualAge
          rw [if_neg hm]
          omega
        rw [hr]
        refine ⟨fun hlt => absurd hlt (by omega), fun _ => hageOk,
          fun hall v hv => ?_⟩
        rcases List.mem_append.mp hv with hv | hv
        · exact hall v hv
        · rcases List.mem_singleton.mp hv with rfl
          exact hageOk

/-- Witness for claim C9: an applicant aged 17 (month difference
negative, so the handler would throw) is not stored. -/
theorem register_requires_age_18_witness :
    actualAge ⟨2026, 4, 10⟩
        ({ fullName := "Tara Nair", email := "tara@example.com",
           phoneNumber := "9123456780", aadhaarNumber := "2222 3333 4444",
           dateOfBirth := ⟨2008, 6, 1⟩ } : RegisterRequest).dateOfBirth < 18
    ∧ (registerVoter ⟨2026, 4, 10⟩
        { fullName := "Tara Nair", email := "tara@example.com",
          phoneNumber := "9123456780", aadhaarNumber := "2222 3333 4444",
          dateOfBirth := ⟨2008, 6, 1⟩ } []).1 ≠ .success :=
  ⟨by decide,
   ((register_requires_age_18 ⟨2026, 4, 10⟩
      { fullName := "Tara Nair", email := "tara@example.com",
        phoneNumber := "9123456780", aadhaarNumber := "2222 3333 4444",
        dateOfBirth := ⟨2008, 6, 1⟩ } []).1 (by decide)).1⟩

/-! Claim C8. -/

/-- Claim C8: starting from a clean account, five consecutive failed
login attempts leave the counter at 5 and a lock expiring two hours
after the fifth attempt; while the lock instant lies in the future every
attempt, correct password included, is answered with the 423 locked
response and changes nothing; and a correct password once the lock has
expired resets the counter and the lock. -/
theorem admin_lockout_after_five_failures (last0 : Option Int)
    (t1 t2 t3 t4 t5 : Int) :
    (failedLogins [t1, t2, t3, t4, t5] ⟨0, none, true, last0⟩).loginAttempts = 5
    ∧ (failedLogins [t1, t2, t3, t4, t5] ⟨0, none, true, last0⟩).lockUntil
        = some (t5 + lockDurationMs)
    ∧ (∀ (now : Int) (pwOk : Bool) (a : Admin) (lockT : Int),
        a.lockUntil = some lockT → now < lockT →
        adminLogin now pwOk a = (.locked, a))
    ∧ (∀ (now : Int) (a : Admin) (lockT : Int),
        a.lockUntil = some lockT → lockT ≤ now → a.isActive = true →
        adminLogin now true a = (.success, ⟨0, none, a.isActive, some now⟩)) := by
  refine ⟨rfl, rfl, fun now pwOk a lockT hl hfut => ?_, fun now a lockT hl hexp hact => ?_⟩
  · have hlocked : isLocked now a = true := by
      unfold isLocked
      rw [hl]
      simpa using hfut
    unfold adminLogin
    rw [hlocked]
    simp
  · have hnotLocked : isLocked now a = false := by
      unfold isLocked
      rw [hl]
      simpa using not_lt.mpr hexp
    unfold adminLogin
    rw [hnotLocked]
    simp [resetLoginAttempts, hact]

/-- Witness for claim C8: five failures at instants 1..5 lock until
5 plus two hours; at instant 6 even a correct password is answered
locked; at an instant past the lock a correct password resets the
counter. -/
theorem admin_lockout_after_five_failures_witness :
    (failedLogins [1, 2, 3, 4, 5] ⟨0, none, true, none⟩).loginAttempts = 5
    ∧ (failedLogins [1, 2, 3, 4, 5] ⟨0, none, true, none⟩).lockUntil
        = some (5 + lockDurationMs)
    ∧ adminLogin 6 true ⟨5, some (5 + lockDurationMs), true, none⟩
        = (.locked, ⟨5, some (5 + lockDurationMs), true, none⟩)
    ∧ adminLogin 99999999 true ⟨5, some (5 + lockDurationMs), true, none⟩
        = (.success, ⟨0, none, true, some 99999999⟩) := by
  obtain ⟨h1, h2, h3, h4⟩ := admin_lockout_after_five_failures none 1 2 3 4 5
  exact ⟨h1, h2,
    h3 6 true ⟨5, some (5 + lockDurationMs), true, none⟩ (5 + lockDurationMs)
      rfl (by decide),
    h4 99999999 ⟨5, some (5 + lockDurationMs), true, none⟩ (5 + lockDurationMs)
      rfl (by decide) rfl⟩

/-! Claim C2. -/

/-- Claim C2: when the election named by a cast request exists, a cast
outside the voting window or with a status other than active is
answered with the voting-not-active error and the whole store - the
vote ledger included - is unchanged; and a cast can only succeed when
the instant lies within [votingStartDate, votingEndDate] and the status
equals active. -/
theorem cast_requires_active_voting_window (H : String → String)
    (r : CastRequest) (s : SystemState) (e : Election)
    (he : s.elections.find? (fun x => x.id == r.electionId) = some e) :
    (isVotingActive r.now e = false →
      castVote H r s = (.votingNotActive, s))
    ∧ (∀ code, (castVote H r s).1 = .success code →
        e.votingStartDate ≤ r.now ∧ r.now ≤ e.votingEndDate
          ∧ e.status = "active") := by
  constructor
  · intro hva
    unfold castVote
    rw [he]
    dsimp only
    rw [if_pos hva]
  · intro code hs
    by_cases hva : isVotingActive r.now e = false
    · exfalso
      have : castVote H r s = (.votingNotActive, s) := by
        unfold castVote
        rw [he]
        dsimp only
        rw [if_pos hva]
      rw [this] at hs
      exact CastResponse.noConfusion hs
    · have : isVotingActive r.now e = true := by
        revert hva
        cases isVotingActive r.now e <;> simp
      unfold isVotingActive at this
      simp only [Bool.and_eq_true, decide_eq_true_eq] at this
      exact ⟨this.1.1, this.1.2, this.2⟩

/-- A cast request by the demo voter at instant 50, after the voting
window of the demo election has closed. -/
def lateRequest : CastRequest :=
  { voterId := 3, electionId := 1, candidateId := 7, now := 50, code := "EF56AB78" }

/-- Witness for claim C2: the late cast is refused with
voting-not-active and the store is untouched. -/
theorem cast_requires_active_voting_window_witness :
    demoState.elections.find? (fun x => x.id == lateRequest.electionId)
        = some demoElection
    ∧ isVotingActive lateRequest.now demoElection = false
    ∧ castVote (fun x => x) lateRequest demoState = (.votingNotActive, demoState) :=
  ⟨by decide, by decide,
   (cast_requires_active_voting_window (fun x => x) lateRequest demoState
      demoElection (by decide)).1 (by decide)⟩

/-! Claim C1. -/

lemma hasVoterVoted_none_spec (voterId electionId : Nat) (votes : List Vote)
    (h : hasVoterVoted voterId electionId votes = none) :
    ∀ w ∈ votes, w.voter ≠ voterId ∨ w.election ≠ electionId := by
  intro w hw
  have := List.find?_eq_none.mp h w hw
  simp only [Bool.and_eq_true, beq_iff_eq, not_and] at this
  by_cases hv : w.voter = voterId
  · exact Or.inr (this hv)
  · exact Or.inl hv

/-- Every path through the cast handler either leaves the ledger exactly
as it was or prepends the one freshly built vote, and the insertion
paths are only reachable when no vote for the (voter, election) pair was
present. -/
lemma castVote_votes_cases (H : String → String) (r : CastRequest)
    (s : SystemState) :
    (castVote H r s).2.votes = s.votes
    ∨ ((castVote H r s).2.votes = mkCastVote H r :: s.votes
        ∧ hasVoterVoted r.voterId r.electionId s.votes = none) := by
  unfold castVote
  rcases hfe : s.elections.find? (fun e => e.id == r.electionId) with _ | e
  · rw [hfe]
    exact Or.inl rfl
  · rw [hfe]
    dsimp only
    by_cases hva : isVotingActive r.now e = false
    · rw [if_pos hva]
      exact Or.inl rfl
    · rw [if_neg hva]
      rcases hvv : hasVoterVoted r.voterId r.electionId s.votes with _ | w
      · try rw [hvv]
        dsimp only
        rcases hfc : s.candidates.find? (fun c =>
            c.id == r.candidateId && c.election == r.electionId
              && c.isActive && c.isApproved) with _ | c
        · try rw [hfc]
          dsimp only
          exact Or.inl rfl
        · try rw [hfc]
          dsimp only
          rcases hfv : s.voters.find? (fun v => v.id == r.voterId) with _ | voter
          · try rw [hfv]
            dsimp only
            exact Or.inl rfl
          · try rw [hfv]
            dsimp only
            by_cases hver : voter.isVerified = false
            · rw [if_pos hver]
              exact Or.inl rfl
            · rw [if_neg hver]
              by_cases hact : voter.isActive = false
              · rw [if_pos hact]
                exact Or.inl rfl
              · rw [if_neg hact]
                by_cases hdk : violatesUniqueIndex (mkCastVote H r) s.votes = true
                · rw [if_pos hdk]
                  exact Or.inl rfl
                · rw [if_neg hdk]
                  rcases ht : updateTurnout e with msg | eT
                  · try rw [ht]
                    exact Or.inr ⟨rfl, rfl⟩
                  · try rw [ht]
                    exact Or.inr ⟨rfl, rfl⟩
      · try rw [hvv]
        exact Or.inl rfl

/-- One cast operation preserves the at-most-one-per-(voter, election)
shape of the ledger. -/
lemma castVote_preserves_unique (H : String → String) (r : CastRequest)
    (s : SystemState) (h : uniquePerVoterElection s.votes) :
    uniquePerVoterElection (castVote H r s).2.votes := by
  rcases castVote_votes_cases H r s with hc | ⟨hc, hnone⟩
  · rw [hc]
    exact h
  · rw [hc]
    refine List.Pairwise.cons (fun w hw => ?_) h
    have hne := hasVoterVoted_none_spec r.voterId r.electionId s.votes hnone w hw
    rcases hne with hne | hne
    · exact Or.inl (fun hcontra => hne (by rw [← hcontra]; rfl))
    · exact Or.inr (fun hcontra => hne (by rw [← hcontra]; rfl))

lemma castMany_preserves_unique (H : String → String) (rs : List CastRequest) :
    ∀ s : SystemState, uniquePerVoterElection s.votes →
      uniquePerVoterElection (castMany H rs s).votes := by
  induction rs with
  | nil => exact fun s h => h
  | cons r rs ih =>
    intro s h
    exact ih (castVote H r s).2 (castVote_preserves_unique H r s h)

/-- Claim C1: any sequence of cast operations keeps the ledger free of
a second vote for the same (voter, election) pair, and a cast attempt
made while a vote for the pair is present changes nothing; when it got
past the election guards it is the already-voted conflict that reports
the failure. -/
theorem vote_ledger_at_most_one_per_voter_election (H : String → String)
    (s : SystemState) (hinv : uniquePerVoterElection s.votes) :
    (∀ rs : List CastRequest, uniquePerVoterElection (castMany H rs s).votes)
    ∧ (∀ (r : CastRequest) (w : Vote),
        hasVoterVoted r.voterId r.electionId s.votes = some w →
        (castVote H r s).2 = s
        ∧ ∀ e, s.elections.find? (fun x => x.id == r.electionId) = some e →
            isVotingActive r.now e = true →
            (castVote H r s).1 = .alreadyVoted) := by
  refine ⟨fun rs => castMany_preserves_unique H rs s hinv, fun r w hvv => ?_⟩
  unfold castVote
  rcases hfe : s.elections.find? (fun x => x.id == r.electionId) with _ | e
  · rw [hfe]
    refine ⟨rfl, fun e' he' hact => ?_⟩
    exact Option.noConfusion he'
  · rw [hfe]
    dsimp only
    by_cases hva : isVotingActive r.now e = false
    · rw [if_pos hva]
      refine ⟨rfl, fun e' he' hact => ?_⟩
      injection he' with he'
      rw [he'] at hva
      rw [hact] at hva
      exact Bool.noConfusion hva
    · rw [if_neg hva]
      rw [hvv]
      exact ⟨rfl, fun _ _ _ => rfl⟩

/-- The demo vote already present in the ledger for the C1 witness. -/
def priorVote : Vote :=
  { voter := 3, election := 1, candidate := 7, votedAt := 22,
    voteHash := "3_7_1_22", voterHash := "3_1_22",
    verificationCode := "AA11BB22", status := "valid" }

/-- The demo store with the prior vote recorded. -/
def votedState : SystemState :=
  { demoState with votes := [priorVote] }

/-- Witness for claim C1: a second cast by the same voter in the same
election leaves the store untouched and is answered already-voted. -/
theorem vote_ledger_at_most_one_witness :
    uniquePerVoterElection votedState.votes
    ∧ hasVoterVoted demoRequest.voterId demoRequest.electionId votedState.votes
        = some priorVote
    ∧ (castVote (fun x => x) demoRequest votedState).2 = votedState
    ∧ (castVote (fun x => x) demoRequest votedState).1 = .alreadyVoted := by
  have hinv : uniquePerVoterElection votedState.votes := by
    unfold uniquePerVoterElection votedState
    simp
  obtain ⟨h1, h2⟩ := (vote_ledger_at_most_one_per_voter_election (fun x => x)
    votedState hinv).2 demoRequest priorVote (by decide)
  exact ⟨hinv, by decide, h1,
    h2 demoElection (by decide) (by decide)⟩

/-! Claim C3. -/

/-- Claim C3: any vote the cast operation adds to the ledger - the
caller supplies no hashes, so the pre-save hook derives them - passes
verifyIntegrity: recomputing the hash from the stored voter, candidate,
election and votedAt fields reproduces the stored voteHash.  Stated for
every hash function, so in particular for sha256. -/
theorem cast_vote_integrity_roundtrip (H : String → String) (r : CastRequest)
    (s : SystemState) :
    ∀ v : Vote, v ∈ (castVote H r s).2.votes → v ∉ s.votes →
      verifyIntegrity H v = true := by
  intro v hv hnv
  rcases castVote_votes_cases H r s with hc | ⟨hc, _⟩
  · rw [hc] at hv
    exact absurd hv hnv
  · rw [hc] at hv
    rcases List.mem_cons.mp hv with rfl | hv
    · unfold verifyIntegrity mkCastVote
      exact beq_self_eq_true _
    · exact absurd hv hnv

/-- Witness for claim C3: the demo cast succeeds and its freshly
inserted vote passes the integrity recomputation. -/
theorem cast_vote_integrity_roundtrip_witness :
    mkCastVote (fun x => x) demoRequest ∈
        (castVote (fun x => x) demoRequest demoState).2.votes
    ∧ mkCastVote (fun x => x) demoRequest ∉ demoState.votes
    ∧ verifyIntegrity (fun x => x) (mkCastVote (fun x => x) demoRequest) = true := by
  have hmem : mkCastVote (fun x => x) demoRequest ∈
      (castVote (fun x => x) demoRequest demoState).2.votes := by decide
  have hnot : mkCastVote (fun x => x) demoRequest ∉ demoState.votes := by decide
  exact ⟨hmem, hnot,
    cast_vote_integrity_roundtrip (fun x => x) demoRequest demoState
      (mkCastVote (fun x => x) demoRequest) hmem hnot⟩

/-! Claim C5. -/

/-- An update body that renames the candidate and carries no election
key. -/
def renameBody : CandidateUpdateBody :=
  { fullName := some "Renamed Candidate", age := none, politicalParty := none,
    constituency := none, election := none }

/-- Claim C5 counterexample: at instant 25 the demo election is in its
open voting window, yet the update whose body omits the election key
sails past the guard and mutates the candidate, so not every candidate
mutation is rejected while voting is active. -/
theorem candidate_update_guard_bypass :
    isVotingActive 25 demoElection = true
    ∧ (updateCandidate 25 7 renameBody demoState).1 = .updated
    ∧ (updateCandidate 25 7 renameBody demoState).2.candidates
        = [{ demoCandidate with fullName := "Renamed Candidate" }] := by
  refine ⟨by decide, by decide, by decide⟩

/-- Claim C5 (amended): while the owning election has its voting window
open, an update is rejected only when the request body carries an
election key - a body without one is applied even then, as the
counterexample shows; deletion is always rejected while the window is
open; and an allowed deletion of a candidate holding at least one vote
deactivates the record in place instead of removing it. -/
theorem candidate_mutation_guard (now : Int) (cid : Nat)
    (b : CandidateUpdateBody) (s : SystemState) (c : Candidate)
    (hc : s.candidates.find? (fun x => x.id == cid) = some c) :
    (b.election.isSome = true →
      ∀ e, s.elections.find? (fun x => x.id == c.election) = some e →
        isVotingActive now e = true →
        updateCandidate now cid b s = (.updateBlockedVotingStarted, s))
    ∧ (∀ e, s.elections.find? (fun x => x.id == c.election) = some e →
        isVotingActive now e = true →
        deleteCandidate now cid s = (.deleteBlockedVotingStarted, s))
    ∧ ((∀ e, s.elections.find? (fun x => x.id == c.election) = some e →
          isVotingActive now e = false) →
        c.voteCount > 0 →
        deleteCandidate now cid s =
          (.deactivated,
           { s with candidates := s.candidates.map (fun x =>
               if x.id == cid then { x with isActive := false } else x) })) := by
  refine ⟨fun hb e he hact => ?_, fun e he hact => ?_, fun hinactive hvotes => ?_⟩
  · unfold updateCandidate
    rw [hc]
    dsimp only
    rw [he]
    dsimp only
    rw [if_pos]
    rw [hb, hact]
    simp
  · unfold deleteCandidate
    rw [hc]
    dsimp only
    rw [he]
    dsimp only
    rw [if_pos hact]
  · unfold deleteCandidate
    rw [hc]
    dsimp only
    rcases he : s.elections.find? (fun x => x.id == c.election) with _ | e
    · try rw [he]
      dsimp only
      rw [if_neg (by simp)]
      rw [if_pos hvotes]
    · try rw [he]
      dsimp only
      rw [if_neg (by simp [hinactive e he])]
      rw [if_pos hvotes]

/-- The candidate of the deactivation witness: one vote received. -/
def votedCandidate : Candidate := { demoCandidate with voteCount := 1 }

/-- The store of the deactivation witness. -/
def votedCandidateState : SystemState :=
  { demoState with candidates := [votedCandidate] }

/-- Witness for claim C5 (amended): the three guard conclusions on the
demo store - an update carrying an election key and a delete are both
rejected at instant 25 inside the window, and at instant 50 past the
window deleting the candidate holding one vote deactivates it. -/
theorem candidate_mutation_guard_witness :
    updateCandidate 25 7
        { renameBody with election := some 1 } demoState
      = (.updateBlockedVotingStarted, demoState)
    ∧ deleteCandidate 25 7 demoState = (.deleteBlockedVotingStarted, demoState)
    ∧ deleteCandidate 50 7 votedCandidateState =
        (.deactivated,
         { votedCandidateState with candidates :=
             (votedCandidateState.candidates.map
               (fun x => if x.id == 7 then { x with isActive := false } else x)) }) := by
  have h1 := (candidate_mutation_guard 25 7 { renameBody with election := some 1 }
    demoState demoCandidate (by decide)).1 (by decide) demoElection (by decide) (by decide)
  have h2 := (candidate_mutation_guard 25 7 renameBody demoState demoCandidate
    (by decide)).2.1 demoElection (by decide) (by decide)
  have h3 := (candidate_mutation_guard 50 7 renameBody votedCandidateState
    votedCandidate (by decide)).2.2
    (fun e he => by
      have hde : votedCandidateState.elections.find?
          (fun x => x.id == votedCandidate.election) = some demoElection := by decide
      rw [hde] at he
      injection he with he
      rw [← he]
      decide)
    (by decide)
  exact ⟨h1, h2, h3⟩

end OnlineVoting
